import Mathlib

/-!
Shallow embedding of the class-serialize repository.

  * `src/type_serialize/obj/deserialize.py` : the recursive, hint-driven
    deserialization engine (`_deserialize_any` and the public `deserialize`).
  * `src/class_serialize/driver/numpy.py` : the array-buffer codec
    (`numpy_serialize` / `numpy_deserialize`).

Python dynamic values are modelled by `PyVal`, type hints by `Hint`, and
classes by `PyCls`.  Recursion of `_deserialize_any` is bounded by an
explicit `fuel` parameter (one unit per `_deserialize_any` frame); fuel
exhaustion models Python's `RecursionError`, which never fires at the
depths used by the theorems below.

Helpers that live in repository modules that are not part of `src/`
(`type_serialize.inspect.types`, `type_serialize.inspect.member`,
`type_serialize.inspect.init_signature`, `type_serialize.obj.errors`,
`type_serialize.obj.interface`, `type_serialize.types.string.to_boolean`)
are modelled from the spec and each carries a doc comment saying so.
-/

namespace ClassSerialize

/-- Python classes of the modelled universe.  `attrMapC` is a user-defined
`MutableMapping` subclass whose instances accept plain attribute
assignment; `recordAC` is a dataclass with one declared field
`a : List[int]`.  The `numpy.ndarray`, `datetime`, `date`, `time` and
`Enum` families are outside the modelled universe (no modelled class
belongs to them), so the corresponding `issubclass` branches of
`_deserialize_any` are statically false and are noted by comments where
they occur in the source. -/
inductive PyCls where
  | noneType
  | boolC
  | intC
  | floatC
  | strC
  | bytesC
  | bytearrayC
  | listC
  | dictC
  | tupleC
  | setC
  | frozensetC
  | objectC
  | attrMapC
  | recordAC
deriving DecidableEq

/-- Type hints.  `Hint.none` is Python `None` (no hint), `cls` a concrete
class used as a hint, the `…Of` constructors are parametrized `typing`
aliases, and `unionObj` is the bare `typing.Union` special form (the
value `get_origin` returns for a union alias). -/
inductive Hint where
  | none
  | any
  | cls (c : PyCls)
  | union (args : List Hint)
  | listOf (t : Hint)
  | dictOf (k v : Hint)
  | setOf (t : Hint)
  | tupleOf (args : List Hint)
  | frozensetOf (t : Hint)
  | unionObj

/-- Python runtime values of the modelled universe.  `itemsObj` is a
mapping-registered object exposing an `items()` accessor, `keysObj` one
exposing only `keys()` plus per-key attributes, `attrMapV` an instance of
the user `MutableMapping` subclass `attrMapC` (mapping entries plus an
attribute dictionary), `instV` a bare instance of some other class, and
`recordA` an instance of the dataclass `recordAC`. -/
inductive PyVal where
  | none
  | bool (b : Bool)
  | int (n : Int)
  | float (q : Rat)
  | str (s : String)
  | bytes (bs : List Nat)
  | list (xs : List PyVal)
  | tuple (xs : List PyVal)
  | dict (entries : List (String × PyVal))
  | itemsObj (items : List (String × PyVal))
  | keysObj (ks : List String) (attrs : List (String × PyVal))
  | attrMapV (entries : List (String × PyVal)) (attrs : List (String × PyVal))
  | instV (c : PyCls) (attrs : List (String × PyVal))
  | recordA (a : PyVal)

/-- Python `type(data)`: the concrete class of a runtime value.
`itemsObj`/`keysObj` stand for instances of plain user classes, so their
type is approximated by `object`. -/
def pyType : PyVal → PyCls
  | .none => .noneType
  | .bool _ => .boolC
  | .int _ => .intC
  | .float _ => .floatC
  | .str _ => .strC
  | .bytes _ => .bytesC
  | .list _ => .listC
  | .tuple _ => .tupleC
  | .dict _ => .dictC
  | .itemsObj _ => .objectC
  | .keysObj _ _ => .objectC
  | .attrMapV _ _ => .attrMapC
  | .instV c _ => c
  | .recordA _ => .recordAC

def clsName : PyCls → String
  | .noneType => "NoneType"
  | .boolC => "bool"
  | .intC => "int"
  | .floatC => "float"
  | .strC => "str"
  | .bytesC => "bytes"
  | .bytearrayC => "bytearray"
  | .listC => "list"
  | .dictC => "dict"
  | .tupleC => "tuple"
  | .setC => "set"
  | .frozensetC => "frozenset"
  | .objectC => "object"
  | .attrMapC => "AttrMap"
  | .recordAC => "RecordA"

def pyTypeName (v : PyVal) : String := clsName (pyType v)

/-- Python `issubclass` restricted to the modelled classes.  The one
non-trivial edge is `issubclass(bool, int) == True`, which is exactly the
reason the source tests the bool family before the int family. -/
def isSubclass (a b : PyCls) : Bool :=
  a == b || (a == .boolC && b == .intC) || b == .objectC

/-- Membership in `collections.abc.MutableMapping`: the builtin `dict`
and the user subclass `attrMapC`. -/
def isMutableMappingCls : PyCls → Bool
  | .dictC => true
  | .attrMapC => true
  | _ => false

/-- Membership in `collections.abc.MutableSequence`: `list` (and
`bytearray`, which Python also registers; the bytearray case is
unreachable in the dispatch chains because `bytearray` is tested
earlier). -/
def isMutableSequenceCls : PyCls → Bool
  | .listC => true
  | .bytearrayC => true
  | _ => false

/-- `typing.get_origin` on a hint.  Concrete classes, `Any` and `None`
have no origin; a union alias has origin `typing.Union` (`unionObj`);
the container aliases have their runtime container class as origin. -/
def getOrigin : Hint → Option Hint
  | .union _ => some .unionObj
  | .listOf _ => some (.cls .listC)
  | .dictOf _ _ => some (.cls .dictC)
  | .setOf _ => some (.cls .setC)
  | .tupleOf _ => some (.cls .tupleC)
  | .frozensetOf _ => some (.cls .frozensetC)
  | _ => Option.none

/-- `typing.get_args` on a hint. -/
def getArgs : Hint → List Hint
  | .union hs => hs
  | .listOf t => [t]
  | .dictOf k v => [k, v]
  | .setOf t => [t]
  | .tupleOf ts => ts
  | .frozensetOf t => [t]
  | _ => []

/-- Recognizes the `NoneType` class among union alternatives
(`type(None) in union_types`). -/
def isNoneTypeHint : Hint → Bool
  | .cls .noneType => true
  | _ => false

/-- `union_types.remove(type(None))`: removes the first `NoneType`
alternative, a no-op when none is present. -/
def removeFirstNoneType : List Hint → List Hint
  | [] => []
  | h :: t => if isNoneTypeHint h then t else h :: removeFirstNoneType t

/-- Modelled from the spec: `is_none` from `type_serialize.inspect.types`
(not under src/) — true for Python `None` and for `type(None)`. -/
def is_noneHint : Hint → Bool
  | .none => true
  | .cls .noneType => true
  | _ => false

/-- Python `isinstance(data, collections.abc.Iterable)` on modelled
values.  Text and byte values are iterable; mappings iterate over their
keys. -/
def pyIterable : PyVal → Bool
  | .str _ => true
  | .bytes _ => true
  | .list _ => true
  | .tuple _ => true
  | .dict _ => true
  | .attrMapV _ _ => true
  | _ => false

/-- What Python iteration yields for each iterable modelled value
(mappings yield their keys, text its characters, bytes its integers). -/
def iterElems : PyVal → List PyVal
  | .str s => s.toList.map (fun ch => .str (String.singleton ch))
  | .bytes bs => bs.map (fun b => .int (Int.ofNat b))
  | .list xs => xs
  | .tuple xs => xs
  | .dict es => es.map (fun p => .str p.1)
  | .attrMapV es _ => es.map (fun p => .str p.1)
  | _ => []

/-- Modelled from the spec: `compatible_iterable` from
`type_serialize.inspect.types` (not under src/) — true if the object is
iterable but not itself a raw text/byte value. -/
def compatible_iterable : PyVal → Bool
  | .str _ => false
  | .bytes _ => false
  | v => pyIterable v

/-- Python `isinstance(data, collections.abc.Mapping)`.  `itemsObj`,
`keysObj` and `attrMapV` stand for `Mapping`-registered user objects. -/
def isMappingInst : PyVal → Bool
  | .dict _ => true
  | .itemsObj _ => true
  | .keysObj _ _ => true
  | .attrMapV _ _ => true
  | _ => false

/-- Modelled from the spec: the accessor name `MAPPING_METHOD_ITEMS` from
`type_serialize.inspect.types` (not under src/). -/
def MAPPING_METHOD_ITEMS : String := "items"

/-- Modelled from the spec: the accessor name `MAPPING_METHOD_KEYS`. -/
def MAPPING_METHOD_KEYS : String := "keys"

/-- Modelled from the spec: the accessor name `SEQUENCE_METHOD_INSERT`. -/
def SEQUENCE_METHOD_INSERT : String := "insert"

/-- `hasattr(data, "items")`: dicts, `items()`-bearing user objects and
the user `MutableMapping` subclass expose an item-pairs accessor. -/
def hasattrItems : PyVal → Bool
  | .dict _ => true
  | .itemsObj _ => true
  | .attrMapV _ _ => true
  | _ => false

/-- `data.items()` for values with an item-pairs accessor. -/
def pyItems : PyVal → List (String × PyVal)
  | .dict es => es
  | .itemsObj its => its
  | .attrMapV es _ => es
  | _ => []

/-- `hasattr(data, "keys")` for values that are probed after the
`items` probe failed. -/
def hasattrKeys : PyVal → Bool
  | .dict _ => true
  | .keysObj _ _ => true
  | .attrMapV _ _ => true
  | _ => false

/-- `data.keys()`. -/
def pyKeys : PyVal → List String
  | .dict es => es.map (·.1)
  | .keysObj ks _ => ks
  | .attrMapV es _ => es.map (·.1)
  | _ => []

/-- `getattr(data, key, None)`: attribute lookup with default `None`. -/
def pyGetattr (d : PyVal) (key : String) : PyVal :=
  match d with
  | .keysObj _ attrs => (attrs.lookup key).getD .none
  | .attrMapV _ attrs => (attrs.lookup key).getD .none
  | .instV _ attrs => (attrs.lookup key).getD .none
  | .recordA v => if key == "a" then v else .none
  | _ => .none

/-- A public (non-underscore-prefixed) attribute name. -/
def isPublicName (s : String) : Bool :=
  match s.data with
  | c :: _ => c != '_'
  | [] => true

/-- Modelled from the spec: `get_public_attributes` from
`type_serialize.inspect.member` (not under src/) — enumerates the public
(non-underscore-prefixed) attribute name/value pairs of an object; for a
mapping-shaped source it yields the entries themselves (the spec's path
accuracy example deserializes a dict into a record through it). -/
def get_public_attributes : PyVal → List (String × PyVal)
  | .dict es => es.filter (fun p => isPublicName p.1)
  | .itemsObj its => its.filter (fun p => isPublicName p.1)
  | .keysObj _ attrs => attrs.filter (fun p => isPublicName p.1)
  | .attrMapV _ attrs => attrs.filter (fun p => isPublicName p.1)
  | .instV _ attrs => attrs.filter (fun p => isPublicName p.1)
  | .recordA v => [("a", v)]
  | _ => []

/-- `typing.get_type_hints(cls)`: declared field-name to hint mapping.
Only the dataclass `recordAC` declares fields in the model. -/
def get_type_hints : PyCls → List (String × Hint)
  | .recordAC => [("a", Hint.listOf (Hint.cls .intC))]
  | _ => []

/-- `dataclasses.is_dataclass`. -/
def is_dataclass : PyCls → Bool
  | .recordAC => true
  | _ => false

/-- Modelled from the spec: `is_protocol` from
`type_serialize.inspect.types` (not under src/) — no modelled class is a
Protocol. -/
def is_protocol : PyCls → Bool := fun _ => false

/-- Modelled from the spec: `is_deserialize_cls` from
`type_serialize.obj.interface` (not under src/) — a class opts in by
exposing the self-deserialize hook; no modelled class opts in. -/
def is_deserialize_cls : PyCls → Bool := fun _ => false

/-- Modelled from the spec: `is_namedtuple_subclass` from
`type_serialize.inspect.types` (not under src/) — no modelled class is a
named tuple. -/
def is_namedtuple_subclass : PyCls → Bool := fun _ => false

/-- Modelled from the spec: `is_serializable_pod_cls` from
`type_serialize.inspect.types` (not under src/) — per the glossary a POD
is a plain, directly constructible scalar-like type; no container class
qualifies, so this branch is statically dead for every generic origin of
the model. -/
def is_serializable_pod_cls : PyCls → Bool
  | .boolC => true
  | .intC => true
  | .floatC => true
  | .strC => true
  | _ => false

/-- Modelled from the spec: `required_init_parameters` from
`type_serialize.inspect.init_signature` (not under src/) — the required
constructor parameters of a class.  Only the dataclass requires one;
builtin containers and `object` require none. -/
def required_init_parameters : PyCls → List String
  | .recordAC => ["a"]
  | _ => []

/-- `inspect.isclass`: every modelled `PyCls` is a class. -/
def pyIsClass : PyCls → Bool := fun _ => true

/-- Python truthiness (`bool(data)`). -/
def truthy : PyVal → Bool
  | .none => false
  | .bool b => b
  | .int n => n != 0
  | .float q => q != 0
  | .str s => s != ""
  | .bytes bs => !bs.isEmpty
  | .list xs => !xs.isEmpty
  | .tuple xs => !xs.isEmpty
  | .dict es => !es.isEmpty
  | .attrMapV es _ => !es.isEmpty
  | _ => true

/-- Python `str.lower` on the modelled strings. -/
def strLower (s : String) : String := String.mk (s.data.map Char.toLower)

/-- Modelled from the spec: the fixed-vocabulary string-to-boolean
parser of `type_serialize.types.string.to_boolean` (not under src/) —
"true"/"false"/"1"/"0"/"yes"/"no", case-insensitive, failing on any
other text. -/
def string_to_boolean (s : String) : Except String Bool :=
  let l := strLower s
  if l = "true" ∨ l = "yes" ∨ l = "1" then .ok true
  else if l = "false" ∨ l = "no" ∨ l = "0" then .ok false
  else .error ("Unknown boolean string: " ++ s)

/-- The message of Python's `ValueError` for `int()` on unparsable text
(modelled without the quote characters of the CPython message). -/
def invalidIntLiteralMsg (s : String) : String :=
  "invalid literal for int with base 10: " ++ s

def digitsToNat? : List Char → Option Nat
  | [] => Option.none
  | cs => go cs 0
where
  go : List Char → Nat → Option Nat
    | [], acc => some acc
    | c :: rest, acc =>
      if c.isDigit then go rest (acc * 10 + (c.toNat - '0'.toNat))
      else Option.none

/-- Decimal integer parsing for Python `int(str)` (an optional sign and
digits; the whitespace/underscore tolerance of CPython is not
modelled). -/
def strToInt? (s : String) : Option Int :=
  match s.data with
  | '-' :: rest => (digitsToNat? rest).map (fun n => -(n : Int))
  | '+' :: rest => (digitsToNat? rest).map Int.ofNat
  | l => (digitsToNat? l).map Int.ofNat

/-- Python `int()` truncates rationals toward zero. -/
def ratTrunc (q : Rat) : Int :=
  if 0 ≤ q then q.floor else -((-q).floor)

/-- Python `int(data)`.  Text parsing is modelled by `String.toInt?`. -/
def pyIntConv : PyVal → Except String Int
  | .bool b => .ok (if b then 1 else 0)
  | .int n => .ok n
  | .float q => .ok (ratTrunc q)
  | .str s =>
    match strToInt? s with
    | some n => .ok n
    | Option.none => .error (invalidIntLiteralMsg s)
  | v => .error ("int argument must be a string or a number, not " ++ pyTypeName v)

/-- Python `float(data)`.  Numeric-text parsing is left unmodelled (no
claim exercises it); such calls fail in the model. -/
def pyFloatConv : PyVal → Except String Rat
  | .bool b => .ok (if b then 1 else 0)
  | .int n => .ok (n : Rat)
  | .float q => .ok q
  | v => .error ("could not convert value to float: " ++ pyTypeName v)

/-- Python `str(data)`: total; non-scalar reprs are approximated. -/
def pyStrConv : PyVal → String
  | .none => "None"
  | .bool b => if b then "True" else "False"
  | .int n => toString n
  | .float q => toString q
  | .str s => s
  | v => "<" ++ pyTypeName v ++ " object>"

/-- Python `bytes(data)` / `bytearray(data)` (byte values model both). -/
def pyBytesConv : PyVal → Except String (List Nat)
  | .bytes bs => .ok bs
  | .bool b => .ok (List.replicate (if b then 1 else 0) 0)
  | .int n => if 0 ≤ n then .ok (List.replicate n.toNat 0) else .error "negative count"
  | .str _ => .error "string argument without an encoding"
  | .list xs =>
    match xs.mapM (fun v =>
      match v with
      | .int n => if 0 ≤ n ∧ n < 256 then some n.toNat else Option.none
      | _ => Option.none) with
    | some bs => .ok bs
    | Option.none => .error "bytes must be in range 0 to 255"
  | v => .error ("cannot convert " ++ pyTypeName v ++ " object to bytes")

/-- Errors in flight.  `deser` models `DeserializeError` (message plus
ordered path-label list), `raw` any other `BaseException` that has not
yet been wrapped, `typeErr` the plain `TypeError` raised by the
top-level `deserialize` for unsupported origins.  `DeserializeError`
itself lives in `type_serialize.obj.errors` (not under src/) and is
modelled from the spec: a message plus an ordered list of path labels,
one label prepended per failing recursion frame. -/
inductive PyErr where
  | deser (msg : String) (path : List String)
  | raw (msg : String)
  | typeErr (msg : String)

/-- Lifts a raised Python exception of a primitive operation into the
in-flight error channel. -/
def liftRaw : Except String PyVal → Except PyErr PyVal
  | .ok v => .ok v
  | .error m => .error (.raw m)

def keyCons (k : Option String) (p : List String) : List String :=
  match k with
  | some s => s :: p
  | Option.none => p

def keyList (k : Option String) : List String :=
  match k with
  | some s => [s]
  | Option.none => []

/-- The `try/except` epilogue of `_deserialize_any`
(deserialize.py lines 372-376): a `DeserializeError` gets the frame's
key prepended (`e.insert_first(key)`, modelled from the spec since
errors.py is not under src/; a `None` key inserts nothing); any other
exception is wrapped into `DeserializeError(str(e), key)`. -/
def wrapCatch (k : Option String) : Except PyErr PyVal → Except PyErr PyVal
  | .ok v => .ok v
  | .error (.deser m p) => .error (.deser m (keyCons k p))
  | .error (.raw m) => .error (.deser m (keyList k))
  | .error (.typeErr m) => .error (.deser m (keyList k))

/-- Overwriting association-list update: Python attribute assignment
(`setattr`) semantics — replace in place if present, else append. -/
def assocSet (as : List (String × PyVal)) (k : String) (v : PyVal) :
    List (String × PyVal) :=
  match as with
  | [] => [(k, v)]
  | (k', w) :: t => if k' == k then (k, v) :: t else (k', w) :: assocSet t k v

/-- `dict.setdefault` insertion: insert at the end only if the key is
absent. -/
def setdefaultIns (es : List (String × PyVal)) (k : String) (v : PyVal) :
    List (String × PyVal) :=
  if (es.lookup k).isSome then es else es ++ [(k, v)]

/-- `setattr(result, key, value)`.  Only instances of the user
`MutableMapping` subclass accept plain attribute assignment among the
constructed result objects; builtin `dict`/`list`/`set`/`object`
instances raise `AttributeError`. -/
def pySetattr (r : PyVal) (k : String) (v : PyVal) : Except String PyVal :=
  match r with
  | .attrMapV es as => .ok (.attrMapV es (assocSet as k v))
  | r' => .error ("cannot set attribute " ++ k ++ " on " ++ pyTypeName r' ++ " object")

/-- `result.setdefault(key, value)` on a constructed mutable mapping. -/
def pySetdefault (r : PyVal) (k : String) (v : PyVal) : Except String PyVal :=
  match r with
  | .dict es => .ok (.dict (setdefaultIns es k v))
  | .attrMapV es as => .ok (.attrMapV (setdefaultIns es k v) as)
  | r' => .error (pyTypeName r' ++ " object has no setdefault method")

/-- `cls()`: zero-argument construction of a modelled class. -/
def constructEmpty : PyCls → Except String PyVal
  | .noneType => .ok .none
  | .boolC => .ok (.bool false)
  | .intC => .ok (.int 0)
  | .floatC => .ok (.float 0)
  | .strC => .ok (.str "")
  | .bytesC => .ok (.bytes [])
  | .bytearrayC => .ok (.bytes [])
  | .listC => .ok (.list [])
  | .dictC => .ok (.dict [])
  | .tupleC => .ok (.tuple [])
  | .attrMapC => .ok (.attrMapV [] [])
  | .recordAC => .error "missing 1 required positional argument: a"
  | c => .ok (.instV c [])

/-- `cls(**kwargs)`: keyword construction, used by the dataclass path.
Only the dataclass `recordAC` accepts keyword construction in the
model. -/
def pyConstructKw (c : PyCls) (kvs : List (String × PyVal)) : Except String PyVal :=
  match c, kvs with
  | .recordAC, [(k, v)] =>
    if k == "a" then .ok (.recordA v)
    else .error ("unexpected keyword argument " ++ k)
  | .recordAC, _ => .error "wrong keyword arguments for RecordA"
  | c', _ => .error (clsName c' ++ " does not accept keyword construction")

/-- `result.insert(len(result), value)` on a constructed mutable
sequence: append at the current end. -/
def seqAppend (r : PyVal) (v : PyVal) : PyVal :=
  match r with
  | .list xs => .list (xs ++ [v])
  | r' => r'

/-- `hasattr(result, "insert")` on a constructed sequence instance. -/
def hasInsertMethod : PyVal → Bool
  | .list _ => true
  | .bytes _ => true
  | _ => false

def FIRST_INDEX_KEY_STR : String := "0"

def DEFAULT_ROOT_KEY : String := "<root>"

/-- Display form of a hint, used only inside error messages. -/
def hintName : Hint → String
  | .none => "None"
  | .any => "typing.Any"
  | .cls c => clsName c
  | .union _ => "typing.Union[...]"
  | .listOf _ => "typing.List[...]"
  | .dictOf _ _ => "typing.Dict[...]"
  | .setOf _ => "typing.Set[...]"
  | .tupleOf _ => "typing.Tuple[...]"
  | .frozensetOf _ => "typing.FrozenSet[...]"
  | .unionObj => "typing.Union"

def unionAmbiguityMsg : String := "Two or more UNION types can not be deduced."

def idxKey (i : Nat) : String := "[" ++ toString i ++ "]"

/-- The index-keyed dict `{str(i): v for i, v in enumerate(data)}` used
by `_deserialize_mapping_any` for iterable non-mapping sources. -/
def enumIndexed (xs : List PyVal) : List (String × PyVal) :=
  (xs.enum).map (fun p => (toString p.1, p.2))

/-- The type of the recursive entry `_deserialize_any` at one fuel
level, threaded through the helpers as a callback:
data, cls, key, hint. -/
def DAny : Type := PyVal → Hint → Option String → Hint → Except PyErr PyVal

/-- `_deserialize_mapping_by_items` (deserialize.py lines 109-120): fold
over the item pairs; each value is deserialized against the element hint
(or its own runtime type) and inserted with `result.setdefault`, i.e.
only if the key is absent. -/
def itemsLoop (dAny : DAny) (elem : Option Hint) (r : PyVal) :
    List (String × PyVal) → Except PyErr PyVal
  | [] => .ok r
  | (k, sv) :: rest =>
    let attrCls := match elem with
      | some e => e
      | Option.none => Hint.cls (pyType sv)
    match dAny sv attrCls (some k) Hint.none with
    | .error e => .error e
    | .ok v =>
      match pySetdefault r k v with
      | .error m => .error (.raw m)
      | .ok r' => itemsLoop dAny elem r' rest

def _deserialize_mapping_by_items (dAny : DAny) (cls : PyCls)
    (items : List (String × PyVal)) (elem : Option Hint) : Except PyErr PyVal :=
  match constructEmpty cls with
  | .error m => .error (.raw m)
  | .ok r => itemsLoop dAny elem r items

/-- `_deserialize_mapping_by_keys` (deserialize.py lines 93-106): fold
over the enumerated keys; each value comes from `getattr(data, key,
None)`, is deserialized, and is stored with plain `setattr`, i.e.
overwriting. -/
def keysLoop (dAny : DAny) (d : PyVal) (elem : Option Hint) (r : PyVal) :
    List String → Except PyErr PyVal
  | [] => .ok r
  | k :: rest =>
    let sv := pyGetattr d k
    let attrCls := match elem with
      | some e => e
      | Option.none => Hint.cls (pyType sv)
    match dAny sv attrCls (some k) Hint.none with
    | .error e => .error e
    | .ok v =>
      match pySetattr r k v with
      | .error m => .error (.raw m)
      | .ok r' => keysLoop dAny d elem r' rest

def _deserialize_mapping_by_keys (dAny : DAny) (d : PyVal) (cls : PyCls)
    (keys : List String) (elem : Option Hint) : Except PyErr PyVal :=
  match constructEmpty cls with
  | .error m => .error (.raw m)
  | .ok r => keysLoop dAny d elem r keys

/-- `_deserialize_mapping` (deserialize.py lines 123-139): probe the
item-pairs accessor first, then the key-enumeration accessor, else fall
back to the source's public attributes as pairs. -/
def _deserialize_mapping (dAny : DAny) (d : PyVal) (cls : PyCls)
    (elem : Option Hint) : Except PyErr PyVal :=
  if hasattrItems d then
    _deserialize_mapping_by_items dAny cls (pyItems d) elem
  else if hasattrKeys d then
    _deserialize_mapping_by_keys dAny d cls (pyKeys d) elem
  else
    _deserialize_mapping_by_items dAny cls (get_public_attributes d) elem

/-- `_deserialize_mapping_any` (deserialize.py lines 142-155):
non-mapping iterable sources are wrapped into a string-indexed dict,
scalar sources into a single-entry dict keyed "0". -/
def _deserialize_mapping_any (dAny : DAny) (d : PyVal) (cls : PyCls)
    (elem : Option Hint) : Except PyErr PyVal :=
  if isMappingInst d then
    _deserialize_mapping dAny d cls elem
  else if compatible_iterable d then
    _deserialize_mapping dAny (.dict (enumIndexed (iterElems d))) cls elem
  else
    _deserialize_mapping dAny (.dict [(FIRST_INDEX_KEY_STR, d)]) cls elem

/-- The element loop of `_deserialize_iterable` (deserialize.py lines
168-171): iterate the source in order, deserialize each element against
the element hint (or its own runtime type) with key label `[i]`, and
insert it at the current end of the result. -/
def elemsLoop (dAny : DAny) (elem : Option Hint) (i : Nat) (r : PyVal) :
    List PyVal → Except PyErr PyVal
  | [] => .ok r
  | sv :: rest =>
    let attrCls := match elem with
      | some e => e
      | Option.none => Hint.cls (pyType sv)
    match dAny sv attrCls (some (idxKey i)) Hint.none with
    | .error e => .error e
    | .ok v => elemsLoop dAny elem (i + 1) (seqAppend r v) rest

/-- `_deserialize_iterable` (deserialize.py lines 158-172). -/
def _deserialize_iterable (dAny : DAny) (d : PyVal) (cls : PyCls)
    (elem : Option Hint) : Except PyErr PyVal :=
  match constructEmpty cls with
  | .error m => .error (.raw m)
  | .ok r =>
    if hasInsertMethod r then
      elemsLoop dAny elem 0 r (iterElems d)
    else
      .error (.deser ("Not found `" ++ SEQUENCE_METHOD_INSERT ++ "` method") [])

/-- `_deserialize_iterable_any` (deserialize.py lines 175-184):
non-iterable sources are wrapped into a single-element list. -/
def _deserialize_iterable_any (dAny : DAny) (d : PyVal) (cls : PyCls)
    (elem : Option Hint) : Except PyErr PyVal :=
  if compatible_iterable d then
    _deserialize_iterable dAny d cls elem
  else
    _deserialize_iterable dAny (.list [d]) cls elem

/-- The loop of `_deserialize_data_to_dict` (deserialize.py lines
187-205): for each public attribute of the source, pick the declared
field hint when present (its origin when it is generic), else the
value's runtime type, and deserialize keyed by the field name. -/
def dataDictLoop (dAny : DAny) (hints : List (String × Hint))
    (acc : List (String × PyVal)) :
    List (String × PyVal) → Except PyErr (List (String × PyVal))
  | [] => .ok acc
  | (key, sv) :: rest =>
    let hintO := hints.lookup key
    let origin := match hintO with
      | some hh => getOrigin hh
      | Option.none => Option.none
    let attrCls := match origin with
      | some o => o
      | Option.none =>
        match hintO with
        | some hh => hh
        | Option.none => Hint.cls (pyType sv)
    let hintArg := match hintO with
      | some hh => hh
      | Option.none => Hint.none
    match dAny sv attrCls (some key) hintArg with
    | .error e => .error e
    | .ok v => dataDictLoop dAny hints (assocSet acc key v) rest

def _deserialize_data_to_dict (dAny : DAny) (d : PyVal) (cls : PyCls) :
    Except PyErr (List (String × PyVal)) :=
  dataDictLoop dAny (get_type_hints cls) [] (get_public_attributes d)

/-- `_deserialize_dataclass` (deserialize.py lines 208-210). -/
def _deserialize_dataclass (dAny : DAny) (d : PyVal) (cls : PyCls) :
    Except PyErr PyVal :=
  match _deserialize_data_to_dict dAny d cls with
  | .error e => .error e
  | .ok kvs => liftRaw (pyConstructKw cls kvs)

/-- The attribute-assignment loop of `_deserialize_object`. -/
def objLoop (r : PyVal) : List (String × PyVal) → Except PyErr PyVal
  | [] => .ok r
  | (k, v) :: rest =>
    match pySetattr r k v with
    | .error m => .error (.raw m)
    | .ok r' => objLoop r' rest

/-- `_deserialize_object` (deserialize.py lines 213-217). -/
def _deserialize_object (dAny : DAny) (d : PyVal) (cls : PyCls) :
    Except PyErr PyVal :=
  match constructEmpty cls with
  | .error m => .error (.raw m)
  | .ok r =>
    match _deserialize_data_to_dict dAny d cls with
    | .error e => .error e
    | .ok kvs => objLoop r kvs

/-- The "Deduced by data" tail of `_deserialize_any` (deserialize.py
lines 358-371): primitives pass through, mappings recurse into a plain
dict, iterables into a plain list, other objects have their attributes
copied onto a dict (which fails on attribute assignment, as in Python);
the final incompatibility raise is dead code for non-None data because
`isclass(type(data))` always holds. -/
def dataDeduce (dAny : DAny) (d : PyVal) (c : Hint) : Except PyErr PyVal :=
  match d with
  | .bytes _ => .ok d
  | .bool _ => .ok d
  | .int _ => .ok d
  | .float _ => .ok d
  | .str _ => .ok d
  | _ =>
    if isMappingInst d then _deserialize_mapping dAny d .dictC Option.none
    else if pyIterable d then _deserialize_iterable dAny d .listC Option.none
    else if pyIsClass (pyType d) then _deserialize_object dAny d .dictC
    else .error (.deser ("The data(`" ++ pyTypeName d ++
      "`) and class(`" ++ hintName c ++ "`) are not compatible.") [])

/-- The "Deduced by class" block of `_deserialize_any` (deserialize.py
lines 265-356).  The fixed family order is preserved; the comment at
lines 272-273 (bool before int because `issubclass(bool, int)`) is the
reason the bool test precedes the int test.  The `numpy.ndarray`,
`datetime`, `date`, `time` and `Enum` branches (lines 289-330) are
omitted because no modelled class belongs to those families (every
guarding `issubclass` is statically false on the modelled universe). -/
def classDeduce (dAny : DAny) (d : PyVal) (c : Hint) (k : Option String) :
    Except PyErr PyVal :=
  match c with
  | .any => dataDeduce dAny d c
  | c' =>
    if is_noneHint c' then dataDeduce dAny d c'
    else
      match getOrigin c' with
      | some co => dAny d co k c'
      | Option.none =>
        match c' with
        | .cls cl =>
          if isSubclass cl .bytesC then liftRaw ((pyBytesConv d).map .bytes)
          else if isSubclass cl .bytearrayC then liftRaw ((pyBytesConv d).map .bytes)
          else if isSubclass cl .boolC then
            match d with
            | .str s =>
              match string_to_boolean s with
              | .ok b => .ok (.bool b)
              | .error m => .error (.raw m)
            | _ => .ok (.bool (truthy d))
          else if isSubclass cl .intC then liftRaw ((pyIntConv d).map .int)
          else if isSubclass cl .floatC then liftRaw ((pyFloatConv d).map .float)
          else if isSubclass cl .strC then .ok (.str (pyStrConv d))
          else if isSubclass cl .tupleC then
            if is_namedtuple_subclass cl then
              .error (.raw "namedtuple construction is outside the modelled universe")
            else if pyIterable d then .ok (.tuple (iterElems d))
            else .ok (.tuple [d])
          else if is_deserialize_cls cl then
            .error (.raw "self-deserializing interface is outside the modelled universe")
          else if isMutableMappingCls cl then
            _deserialize_mapping_any dAny d cl Option.none
          else if isMutableSequenceCls cl then
            _deserialize_iterable_any dAny d cl Option.none
          else if is_dataclass cl then _deserialize_dataclass dAny d cl
          else if is_protocol cl then
            if pyIterable d then _deserialize_iterable dAny d .listC Option.none
            else _deserialize_object dAny d .objectC
          else if pyIsClass cl then
            if (required_init_parameters cl).isEmpty then
              _deserialize_object dAny d cl
            else
              _deserialize_dataclass dAny d cl
          else dataDeduce dAny d c'
        | .unionObj =>
          .error (.raw "issubclass argument 1 must be a class")
        | _ => dataDeduce dAny d c'

/-- The hint-origin dispatch of `_deserialize_any` (deserialize.py lines
230-263) followed by the class/data deduction: union stripping, then the
origin family chain, falling through to `classDeduce` when there is no
origin or no origin branch matches. -/
def hintDispatch (dAny : DAny) (d : PyVal) (c : Hint) (k : Option String)
    (h : Hint) : Except PyErr PyVal :=
  match getOrigin h with
  | Option.none => classDeduce dAny d c k
  | some o =>
    match o with
    | .unionObj =>
      -- assert len(union_types) >= 2 holds for every typing-produced union
      let us := removeFirstNoneType (getArgs h)
      if 2 ≤ us.length then .error (.deser unionAmbiguityMsg [])
      else
        match us with
        | [u] => dAny d u Option.none u
        | _ => .error (.raw "assert len(union_types) == 1")
    | .cls oc =>
      if isSubclass oc .bytesC then liftRaw ((pyBytesConv d).map .bytes)
      else if isSubclass oc .bytearrayC then liftRaw ((pyBytesConv d).map .bytes)
      else if is_deserialize_cls oc then
        .error (.raw "self-deserializing interface is outside the modelled universe")
      else if is_serializable_pod_cls oc then
        -- dead for every modelled generic origin (all are containers)
        liftRaw ((pyIntConv d).map .int)
      else if isMutableMappingCls oc then
        _deserialize_mapping_any dAny d oc
          (match getArgs h with
           | [_, v] => some v
           | _ => Option.none)
      else if isMutableSequenceCls oc then
        _deserialize_iterable_any dAny d oc
          (match getArgs h with
           | [t] => some t
           | _ => Option.none)
      else classDeduce dAny d c k
    | _ => classDeduce dAny d c k

/-- `_deserialize_any` (deserialize.py lines 220-376): the fueled
recursive dispatcher.  The absence short-circuit (line 227) runs before
everything else; the whole body sits inside the `try/except` modelled by
`wrapCatch`.  One fuel unit is consumed per frame. -/
def _deserialize_any : Nat → PyVal → Hint → Option String → Hint →
    Except PyErr PyVal
  | 0, _, _, _, _ => .error (.deser "maximum recursion depth exceeded" [])
  | f + 1, d, c, k, h =>
    wrapCatch k
      (match d with
       | .none => .ok .none
       | _ =>
         hintDispatch (fun d' c' k' h' => _deserialize_any f d' c' k' h') d c k h)

/-- `_deserialize_root` (deserialize.py lines 379-380). -/
def _deserialize_root (f : Nat) (d : PyVal) (c : Hint) (h : Hint) :
    Except PyErr PyVal :=
  _deserialize_any f d c (some DEFAULT_ROOT_KEY) h

/-- `deserialize` (deserialize.py lines 383-414): the public entry.
Generic hints are admitted only when their origin is a union (stripped
here, before any look at the data), a list subclass or a dict subclass;
every other origin raises a plain `TypeError`. -/
def deserialize (f : Nat) (d : PyVal) (cls_or_hint : Hint) :
    Except PyErr PyVal :=
  match cls_or_hint with
  | .none =>
    -- get_origin(type(data)) is None for every concrete class
    _deserialize_root f d (.cls (pyType d)) .none
  | ch =>
    match getOrigin ch with
    | Option.none => _deserialize_root f d ch .none
    | some .unionObj =>
      -- assert len(union_types) >= 2 holds for every typing-produced union
      let us := removeFirstNoneType (getArgs ch)
      if 2 ≤ us.length then .error (.deser unionAmbiguityMsg [])
      else
        match us with
        | [u] => _deserialize_root f d u u
        | _ => .error (.raw "assert len(union_types) == 1")
    | some (.cls oc) =>
      if isSubclass oc .listC then _deserialize_root f d (.cls .listC) ch
      else if isSubclass oc .dictC then _deserialize_root f d (.cls .dictC) ch
      else .error (.typeErr ("Unsupported origin: " ++ clsName oc))
    | some _ => .error (.typeErr "Unsupported origin")

/-!
The array-buffer codec, `src/class_serialize/driver/numpy.py`.  NumPy
itself is an external collaborator; its pieces used by the codec (the
dtype registry and the `numpy.ndarray` constructor) are modelled from
the spec (sections 4.2 and 6) where noted.  `HAS_NUMPY` is true: the
modelled environment has the array runtime available.
-/

/-- Dynamic values that may appear in a raw 4-element array record. -/
inductive NpVal where
  | int (n : Int)
  | str (s : String)
  | bytes (bs : List Nat)
  | intList (xs : List Int)

/-- Errors of the codec: `valueError` for the validation and dtype
failures, `typeError` for the unsupported-proto-type raise, `raw` for
exceptions escaping the modelled external constructor. -/
inductive NpErr where
  | valueError (msg : String)
  | typeError (msg : String)
  | raw (msg : String)

/-- A `numpy.ndarray`: shape, dtype name, element size in bytes, the
underlying byte buffer, and strides in bytes. -/
structure Ndarray where
  shape : List Nat
  dtypeName : String
  itemsize : Nat
  buffer : List Nat
  strides : List Int

/-- Modelled from the spec: the process-wide dtype registry (section 6)
mapping a dtype name to its canonical name and element size; lookup is
`numpy.dtype(name)`.  A finite table of common dtypes and aliases. -/
def dtypeFromName (s : String) : Option (String × Nat) :=
  List.lookup s
    [("bool", ("bool", 1)),
     ("int8", ("int8", 1)), ("uint8", ("uint8", 1)),
     ("int16", ("int16", 2)), ("uint16", ("uint16", 2)),
     ("int32", ("int32", 4)), ("uint32", ("uint32", 4)),
     ("int64", ("int64", 8)), ("uint64", ("uint64", 8)),
     ("float32", ("float32", 4)), ("float64", ("float64", 8)),
     ("f4", ("float32", 4)), ("f8", ("float64", 8)),
     ("i4", ("int32", 4)), ("i8", ("int64", 8)),
     ("u1", ("uint8", 1))]

/-- The row-major (C-order) strides of a shape for a given element
size. -/
def cStrides (isz : Nat) : List Nat → List Nat
  | [] => []
  | _ :: ds => isz * ds.prod :: cStrides isz ds

/-- All multi-indices of a shape, enumerated in C order (last index
fastest). -/
def cIndices : List Nat → List (List Nat)
  | [] => [[]]
  | d :: ds => (List.range d).flatMap (fun i => (cIndices ds).map (fun idx => i :: idx))

/-- Byte offset of a multi-index under nat strides. -/
def natOffset (strides : List Nat) (idx : List Nat) : Nat :=
  (List.zipWith (· * ·) strides idx).sum

/-- Byte offset of a multi-index under (possibly negative) strides. -/
def elemOffset (strides : List Int) (idx : List Nat) : Int :=
  (List.zipWith (fun s i => s * Int.ofNat i) strides idx).sum

/-- One element's bytes at a byte offset. -/
def readItem (buffer : List Nat) (off : Nat) (isz : Nat) : List Nat :=
  (buffer.drop off).take isz

/-- `array.tobytes()`: the element bytes gathered in C order. -/
def tobytes (a : Ndarray) : List Nat :=
  (cIndices a.shape).flatMap
    (fun idx => readItem a.buffer (elemOffset a.strides idx).toNat a.itemsize)

/-- The `C_CONTIGUOUS` flag: the strides are exactly the row-major
strides of the shape. -/
def cContiguous (a : Ndarray) : Bool :=
  decide (a.strides = (cStrides a.itemsize a.shape).map Int.ofNat)

/-- `_ndarray_to_bytes_by_darwin` (numpy.py lines 29-32): always a full
linearizing copy. -/
def _ndarray_to_bytes_by_darwin (a : Ndarray) : List Nat := tobytes a

/-- `_ndarray_to_bytes` (numpy.py lines 35-47): zero-copy view of the
underlying buffer when C-contiguous (the `array.data` memoryview turned
into bytes), else the linearizing copy. -/
def _ndarray_to_bytes (a : Ndarray) : List Nat :=
  if cContiguous a then a.buffer else tobytes a

/-- The platform-conditional selection at numpy.py lines 50-53. -/
def ndarray_to_bytes (platform : String) (a : Ndarray) : List Nat :=
  if platform = "darwin" then _ndarray_to_bytes_by_darwin a
  else _ndarray_to_bytes a

/-- `NumpyProto` (numpy.py lines 56-60).  A NamedTuple performs no
conversion, so a record built from a raw sequence may hold arbitrary
values; the fields are therefore dynamically typed. -/
structure NumpyProto where
  shape : NpVal
  dtype : NpVal
  buffer : NpVal
  strides : NpVal

/-- Python truthiness of a dynamic record field. -/
def npTruthy : NpVal → Bool
  | .int n => n != 0
  | .str s => s != ""
  | .bytes bs => !bs.isEmpty
  | .intList xs => !xs.isEmpty

/-- Display form of a dynamic record field inside an error message. -/
def npStrRepr : NpVal → String
  | .int n => toString n
  | .str s => s
  | .bytes _ => "<bytes>"
  | .intList _ => "<list>"

/-- `isinstance(x, Iterable)` on a record slot (text, bytes and lists
are iterable; integers are not). -/
def npIterable : NpVal → Bool
  | .int _ => false
  | _ => true

def npIsStr : NpVal → Bool
  | .str _ => true
  | _ => false

/-- `isinstance(x, (bytes, bytearray, memoryview))`. -/
def npBytesLike : NpVal → Bool
  | .bytes _ => true
  | _ => false

/-- `numpy.dtype(x)` on a dynamic field: only a string that resolves in
the registry succeeds; anything else raises (and is caught by the bare
`except:` of the callers). -/
def npDtypeOf : NpVal → Option (String × Nat)
  | .str s => dtypeFromName s
  | _ => Option.none

/-- Shape argument coercion of the array constructor: an iterable of
non-negative integers. -/
def coerceShape : NpVal → Option (List Nat)
  | .intList xs => if xs.all (fun n => 0 ≤ n) then some (xs.map Int.toNat) else Option.none
  | .bytes bs => some bs
  | _ => Option.none

/-- Strides argument coercion: an iterable of integers. -/
def coerceStrides : NpVal → Option (List Int)
  | .intList xs => some xs
  | .bytes bs => some (bs.map Int.ofNat)
  | _ => Option.none

/-- Buffer argument coercion: a byte-like object. -/
def coerceBuffer : NpVal → Option (List Nat)
  | .bytes bs => some bs
  | _ => Option.none

/-- Modelled from the spec: the external `numpy.ndarray(shape, dtype,
buffer, strides)` constructor, which per section 4.2 reconstructs an
array view over the given buffer honoring shape, dtype and strides
exactly, with no data transformation. -/
def np_ndarray (shape : NpVal) (dt : String × Nat) (buffer : NpVal)
    (strides : NpVal) : Except NpErr Ndarray :=
  match coerceShape shape, coerceBuffer buffer, coerceStrides strides with
  | some sh, some bf, some st => .ok ⟨sh, dt.1, dt.2, bf, st⟩
  | _, _, _ => .error (.raw "invalid arguments to numpy.ndarray")

/-- `numpy_serialize` (numpy.py lines 63-79): validate that the dtype
name round-trips through the registry, then emit the (shape, dtype
name, bytes, strides) record.  `str(array.dtype)` in the empty-name
message is modelled by the dtype name itself. -/
def numpy_serialize (platform : String) (a : Ndarray) :
    Except NpErr NumpyProto :=
  match dtypeFromName a.dtypeName with
  | some _ =>
    .ok ⟨.intList (a.shape.map Int.ofNat), .str a.dtypeName,
         .bytes (ndarray_to_bytes platform a), .intList a.strides⟩
  | Option.none =>
    if a.dtypeName ≠ "" then
      .error (.valueError ("Unsupported dtype name: " ++ a.dtypeName))
    else
      .error (.valueError ("Empty dtype name: " ++ a.dtypeName))

/-- `_numpy_deserialize` (numpy.py lines 82-96). -/
def _numpy_deserialize (p : NumpyProto) : Except NpErr Ndarray :=
  match npDtypeOf p.dtype with
  | some dt => np_ndarray p.shape dt p.buffer p.strides
  | Option.none =>
    if npTruthy p.dtype then
      .error (.valueError ("Unsupported dtype name: " ++ npStrRepr p.dtype))
    else
      .error (.valueError "Empty dtype name")

/-- The raw-sequence path of `numpy_deserialize` (numpy.py lines
103-117): exactly 4 elements, positionally validated, then packed into
a record without conversion. -/
def numpy_deserialize_raw (xs : List NpVal) : Except NpErr Ndarray :=
  match xs with
  | [x0, x1, x2, x3] =>
    if !npIterable x0 then
      .error (.valueError "The first element must be `Iterable`")
    else if !npIsStr x1 then
      .error (.valueError "The second element must be `str`")
    else if !npBytesLike x2 then
      .error (.valueError "The third element must be `bytes-like`")
    else if !npIterable x3 then
      .error (.valueError "The forth element must be `Iterable`")
    else
      _numpy_deserialize ⟨x0, x1, x2, x3⟩
  | _ =>
    .error (.valueError ("There must be 4 elements. There are actually " ++
      toString xs.length ++ " elements."))

/-- The argument universe of `numpy_deserialize`:
`Union[list, tuple, NumpyProto]`. -/
inductive NpInput where
  | proto (p : NumpyProto)
  | list (xs : List NpVal)
  | tuple (xs : List NpVal)

/-- `numpy_deserialize` (numpy.py lines 99-119). -/
def numpy_deserialize : NpInput → Except NpErr Ndarray
  | .proto p => _numpy_deserialize p
  | .list xs => numpy_deserialize_raw xs
  | .tuple xs => numpy_deserialize_raw xs

/-!
Auxiliary definitions used by the theorem statements below.
-/

/-- The hints whose top-level origin handling in `deserialize` fails
before `_deserialize_root` is ever called: union aliases that do not
strip to exactly one alternative, and generic aliases with an
unsupported origin. -/
def topOriginFails : Hint → Bool
  | .union hs => (removeFirstNoneType hs).length != 1
  | .setOf _ => true
  | .tupleOf _ => true
  | .frozensetOf _ => true
  | _ => false

def isStrVal : PyVal → Bool
  | .str _ => true
  | _ => false

def isNoneVal : PyVal → Bool
  | .none => true
  | _ => false

/-- Lifts an association list of integers into entry pairs of the value
universe. -/
def intEntries (l : List (String × Int)) : List (String × PyVal) :=
  l.map (fun p => (p.1, PyVal.int p.2))

/-- Pointwise success of the element deserializations of a sequence
source, with the exact key labels and element classes the loop of
`_deserialize_iterable` uses. -/
def ElemsOk (dAny : DAny) (elem : Option Hint) :
    Nat → List PyVal → List PyVal → Prop
  | _, [], [] => True
  | i, x :: xs, v :: vs =>
    dAny x (match elem with | some e => e | Option.none => Hint.cls (pyType x))
      (some (idxKey i)) Hint.none = .ok v ∧ ElemsOk dAny elem (i + 1) xs vs
  | _, [], _ :: _ => False
  | _, _ :: _, [] => False

/-!
Theorems for the claims.
-/

/-- C1 counterexample: `deserialize(None, Union[int, str])` does not
return absence; the top-level union stripping runs first and fails with
the union-ambiguity `DeserializeError`, so the claim as stated is false
at this input. -/
theorem claim_C1_absence_counterexample :
    deserialize 1 .none (.union [.cls .intC, .cls .strC]) =
      .error (.deser unionAmbiguityMsg []) := rfl

/-- C1 (amended): within the recursive engine, absence short-circuits
before any dispatch — `_deserialize_any` returns `None` for `None` data
whatever the cls, key and hint are; and `deserialize(None, AnyType)`
returns absence for every `AnyType` whose top-level origin handling does
not itself fail first (i.e. excluding union hints that do not strip to
exactly one alternative, and set/tuple/frozenset generics). -/
theorem claim_C1_absence_shortcircuit :
    (∀ (f : Nat) (c : Hint) (k : Option String) (h : Hint),
      _deserialize_any (f + 1) .none c k h = .ok .none)
  ∧ (∀ (f : Nat) (ch : Hint), topOriginFails ch = false →
      deserialize (f + 1) .none ch = .ok .none) := by
  constructor
  · intro f c k h
    rfl
  · intro f ch hch
    cases ch with
    | union hs =>
      have hlen : (removeFirstNoneType hs).length = 1 := by
        simpa [topOriginFails] using hch
      obtain ⟨u, hu⟩ := List.length_eq_one.mp hlen
      simp only [deserialize, getOrigin, getArgs, hu]
      rfl
    | setOf t => simp [topOriginFails] at hch
    | tupleOf ts => simp [topOriginFails] at hch
    | frozensetOf t => simp [topOriginFails] at hch
    | none => rfl
    | any => rfl
    | cls c => rfl
    | listOf t => rfl
    | dictOf a b => rfl
    | unionObj => rfl

/-- C1 witness: a plain class hint reaches the absence short-circuit. -/
theorem claim_C1_absence_shortcircuit_witness :
    topOriginFails (Hint.cls .intC) = false ∧
    deserialize 1 PyVal.none (Hint.cls .intC) = .ok .none :=
  ⟨rfl, claim_C1_absence_shortcircuit.2 0 (Hint.cls .intC) rfl⟩

/-- C2: `deserialize(5, Optional[int])` yields `5`,
`deserialize(None, Optional[int])` yields absence, and every union hint
that still has two or more alternatives after removing the `NoneType`
alternative fails with the union-ambiguity `DeserializeError`. -/
theorem claim_C2_union_handling :
    (∀ f : Nat, deserialize (f + 1) (.int 5) (.union [.cls .intC, .cls .noneType]) =
      .ok (.int 5))
  ∧ (∀ f : Nat, deserialize (f + 1) .none (.union [.cls .intC, .cls .noneType]) =
      .ok .none)
  ∧ (∀ (f : Nat) (d : PyVal) (hs : List Hint),
      2 ≤ (removeFirstNoneType hs).length →
      deserialize f d (.union hs) = .error (.deser unionAmbiguityMsg [])) := by
  refine ⟨fun f => rfl, fun f => rfl, fun f d hs h2 => ?_⟩
  simp only [deserialize, getOrigin, getArgs]
  rw [if_pos h2]

/-- C2 witness: `deserialize(5, Union[int, str])` fails with the
union-ambiguity error. -/
theorem claim_C2_union_handling_witness :
    2 ≤ (removeFirstNoneType [Hint.cls .intC, Hint.cls .strC]).length ∧
    deserialize 0 (.int 5) (.union [.cls .intC, .cls .strC]) =
      .error (.deser unionAmbiguityMsg []) :=
  ⟨le_refl 2,
   claim_C2_union_handling.2.2 0 (.int 5) [Hint.cls .intC, Hint.cls .strC] (le_refl 2)⟩

/-- C3: for a bool target, text data goes through the dedicated
string-to-boolean rule and all other (non-absent) data is coerced by
truthiness; the equations show the bool family is dispatched before the
integer family ever sees the value. -/
theorem claim_C3_bool_precedence :
    (∀ (f : Nat) (s : String) (b : Bool), string_to_boolean s = .ok b →
      deserialize (f + 1) (.str s) (.cls .boolC) = .ok (.bool b))
  ∧ (∀ (f : Nat) (d : PyVal), isStrVal d = false → isNoneVal d = false →
      deserialize (f + 1) d (.cls .boolC) = .ok (.bool (truthy d))) := by
  constructor
  · intro f s b hsb
    have hred : deserialize (f + 1) (.str s) (.cls .boolC) =
        wrapCatch (some DEFAULT_ROOT_KEY)
          (match string_to_boolean s with
           | .ok b => .ok (.bool b)
           | .error m => .error (.raw m)) := rfl
    rw [hred, hsb]
    rfl
  · intro f d h1 h2
    cases d with
    | str s => simp [isStrVal] at h1
    | none => simp [isNoneVal] at h2
    | bool b => rfl
    | int n => rfl
    | float q => rfl
    | bytes bs => rfl
    | list xs => rfl
    | tuple xs => rfl
    | dict es => rfl
    | itemsObj its => rfl
    | keysObj ks as => rfl
    | attrMapV es as => rfl
    | instV c as => rfl
    | recordA v => rfl

/-- C3 witness: `deserialize("false", bool)` yields `False` through the
text rule; `deserialize(1, bool)` yields `True` through truthiness. -/
theorem claim_C3_bool_precedence_witness :
    string_to_boolean "false" = .ok false ∧
    deserialize 1 (.str "false") (.cls .boolC) = .ok (.bool false) ∧
    isStrVal (.int 1) = false ∧ isNoneVal (.int 1) = false ∧
    deserialize 1 (.int 1) (.cls .boolC) = .ok (.bool true) :=
  ⟨rfl, claim_C3_bool_precedence.1 0 "false" false rfl, rfl, rfl,
   claim_C3_bool_precedence.2 0 (.int 1) rfl rfl⟩

/-- C5: the raw-record path of the array deserializer requires exactly
4 elements and validates them positionally, failing with a
`ValueError`-class error naming the offending position; lists and
tuples are treated identically. -/
theorem claim_C5_raw_record_validation :
    (∀ xs : List NpVal, xs.length ≠ 4 →
      numpy_deserialize (.tuple xs) = .error (.valueError
        ("There must be 4 elements. There are actually " ++
          toString xs.length ++ " elements.")))
  ∧ (∀ x0 x1 x2 x3 : NpVal, npIterable x0 = false →
      numpy_deserialize (.tuple [x0, x1, x2, x3]) =
        .error (.valueError "The first element must be `Iterable`"))
  ∧ (∀ x0 x1 x2 x3 : NpVal, npIterable x0 = true → npIsStr x1 = false →
      numpy_deserialize (.tuple [x0, x1, x2, x3]) =
        .error (.valueError "The second element must be `str`"))
  ∧ (∀ x0 x1 x2 x3 : NpVal, npIterable x0 = true → npIsStr x1 = true →
      npBytesLike x2 = false →
      numpy_deserialize (.tuple [x0, x1, x2, x3]) =
        .error (.valueError "The third element must be `bytes-like`"))
  ∧ (∀ x0 x1 x2 x3 : NpVal, npIterable x0 = true → npIsStr x1 = true →
      npBytesLike x2 = true → npIterable x3 = false →
      numpy_deserialize (.tuple [x0, x1, x2, x3]) =
        .error (.valueError "The forth element must be `Iterable`"))
  ∧ (∀ xs : List NpVal, numpy_deserialize (.list xs) = numpy_deserialize (.tuple xs)) := by
  refine ⟨?_, ?_, ?_, ?_, ?_, fun xs => rfl⟩
  · intro xs hlen
    rcases xs with _ | ⟨x0, _ | ⟨x1, _ | ⟨x2, _ | ⟨x3, _ | ⟨x4, t⟩⟩⟩⟩⟩
    · rfl
    · rfl
    · rfl
    · rfl
    · exact absurd rfl hlen
    · rfl
  · intro x0 x1 x2 x3 h0
    show numpy_deserialize_raw [x0, x1, x2, x3] = _
    simp only [numpy_deserialize_raw, h0]
    rfl
  · intro x0 x1 x2 x3 h0 h1
    show numpy_deserialize_raw [x0, x1, x2, x3] = _
    simp only [numpy_deserialize_raw, h0, h1]
    rfl
  · intro x0 x1 x2 x3 h0 h1 h2
    show numpy_deserialize_raw [x0, x1, x2, x3] = _
    simp only [numpy_deserialize_raw, h0, h1, h2]
    rfl
  · intro x0 x1 x2 x3 h0 h1 h2 h3
    show numpy_deserialize_raw [x0, x1, x2, x3] = _
    simp only [numpy_deserialize_raw, h0, h1, h2, h3]
    rfl

/-- C5 witness: the record `(123, "f4", b"\x00\x00\x00\x00", [4])`
fails citing position 0, which must be iterable. -/
theorem claim_C5_raw_record_validation_witness :
    npIterable (NpVal.int 123) = false ∧
    numpy_deserialize (.tuple [.int 123, .str "f4", .bytes [0, 0, 0, 0], .intList [4]]) =
      .error (.valueError "The first element must be `Iterable`") :=
  ⟨rfl, claim_C5_raw_record_validation.2.1
    (.int 123) (.str "f4") (.bytes [0, 0, 0, 0]) (.intList [4]) rfl⟩

/-- C6: in both codec directions a dtype name that fails registry
lookup raises a `ValueError`-class error, "Unsupported dtype name"
citing the name when it is non-blank and an "Empty dtype name" error
when it is blank. -/
theorem claim_C6_dtype_errors :
    (∀ (platform : String) (a : Ndarray),
      dtypeFromName a.dtypeName = Option.none → a.dtypeName ≠ "" →
      numpy_serialize platform a =
        .error (.valueError ("Unsupported dtype name: " ++ a.dtypeName)))
  ∧ (∀ (platform : String) (a : Ndarray),
      dtypeFromName a.dtypeName = Option.none → a.dtypeName = "" →
      numpy_serialize platform a =
        .error (.valueError ("Empty dtype name: " ++ a.dtypeName)))
  ∧ (∀ (sh bf st : NpVal) (s : String),
      dtypeFromName s = Option.none → s ≠ "" →
      numpy_deserialize (.proto ⟨sh, .str s, bf, st⟩) =
        .error (.valueError ("Unsupported dtype name: " ++ s)))
  ∧ (∀ sh bf st : NpVal,
      numpy_deserialize (.proto ⟨sh, .str "", bf, st⟩) =
        .error (.valueError "Empty dtype name")) := by
  refine ⟨?_, ?_, ?_, fun sh bf st => rfl⟩
  · intro platform a h1 h2
    simp only [numpy_serialize, h1]
    rw [if_pos h2]
  · intro platform a h1 h2
    simp only [numpy_serialize, h1]
    rw [if_neg (fun hc => hc h2)]
  · intro sh bf st s h1 h2
    show _numpy_deserialize ⟨sh, .str s, bf, st⟩ = _
    simp only [_numpy_deserialize, npDtypeOf, h1]
    rw [if_pos (by simp [npTruthy, h2])]
    rfl

/-- C6 witness: the name "not-a-real-dtype" fails both directions with
the unsupported-name error; the blank name fails both with the
empty-name error. -/
theorem claim_C6_dtype_errors_witness :
    numpy_serialize "linux" ⟨[1], "not-a-real-dtype", 1, [0], [1]⟩ =
      .error (.valueError "Unsupported dtype name: not-a-real-dtype") ∧
    numpy_serialize "linux" ⟨[1], "", 1, [0], [1]⟩ =
      .error (.valueError "Empty dtype name: ") ∧
    numpy_deserialize (.proto ⟨.intList [1], .str "not-a-real-dtype", .bytes [0], .intList [1]⟩) =
      .error (.valueError "Unsupported dtype name: not-a-real-dtype") ∧
    numpy_deserialize (.proto ⟨.intList [1], .str "", .bytes [0], .intList [1]⟩) =
      .error (.valueError "Empty dtype name") :=
  ⟨claim_C6_dtype_errors.1 "linux" ⟨[1], "not-a-real-dtype", 1, [0], [1]⟩ rfl
     (by decide),
   claim_C6_dtype_errors.2.1 "linux" ⟨[1], "", 1, [0], [1]⟩ rfl rfl,
   claim_C6_dtype_errors.2.2.1 (.intList [1]) (.bytes [0]) (.intList [1])
     "not-a-real-dtype" rfl (by decide),
   claim_C6_dtype_errors.2.2.2 (.intList [1]) (.bytes [0]) (.intList [1])⟩

/-- C8: deserializing the dict with field "a" holding [1, "x"] into the
record type whose field a is List[int] fails at index 1 with the
root-to-leaf path root, "a", "[1]"; and every failing frame prepends
its own key label to the in-flight error before re-raising. -/
theorem claim_C8_error_path :
    (∀ f : Nat,
      deserialize (f + 3) (.dict [("a", .list [.int 1, .str "x"])]) (.cls .recordAC) =
        .error (.deser (invalidIntLiteralMsg "x") [DEFAULT_ROOT_KEY, "a", "[1]"]))
  ∧ (∀ (k : String) (e : PyErr), ∃ m p,
      wrapCatch (some k) (.error e) = .error (.deser m (k :: p))) := by
  constructor
  · intro f
    rfl
  · intro k e
    cases e with
    | deser m p => exact ⟨m, p, rfl⟩
    | raw m => exact ⟨m, [], rfl⟩
    | typeErr m => exact ⟨m, [], rfl⟩

/-- C10: the top-level `deserialize` admits only union, list and dict
origins; a set, tuple or frozenset generic raises the plain
`TypeError` "Unsupported origin: …" (not a `DeserializeError`, with no
path), while the recursive engine never raises that `TypeError` — a
nested set generic falls through to class deduction exactly as if no
hint had been given. -/
theorem claim_C10_unsupported_origin :
    (∀ (f : Nat) (d : PyVal) (t : Hint),
      deserialize f d (.setOf t) = .error (.typeErr "Unsupported origin: set") ∧
      deserialize f d (.frozensetOf t) =
        .error (.typeErr "Unsupported origin: frozenset"))
  ∧ (∀ (f : Nat) (d : PyVal) (ts : List Hint),
      deserialize f d (.tupleOf ts) = .error (.typeErr "Unsupported origin: tuple"))
  ∧ (∀ (f : Nat) (d : PyVal) (c : Hint) (k : Option String) (h : Hint) (m : String),
      _deserialize_any f d c k h ≠ .error (.typeErr m))
  ∧ (∀ (f : Nat) (d : PyVal) (k : Option String) (t : Hint),
      _deserialize_any (f + 1) d (.cls .setC) k (.setOf t) =
        _deserialize_any (f + 1) d (.cls .setC) k Hint.none) := by
  refine ⟨fun f d t => ⟨rfl, rfl⟩, fun f d ts => rfl, ?_, ?_⟩
  · intro f d c k h m
    cases f with
    | zero =>
      intro hc
      exact PyErr.noConfusion (Except.error.inj hc)
    | succ f' =>
      have hall : ∀ r : Except PyErr PyVal,
          wrapCatch k r ≠ .error (.typeErr m) := by
        intro r
        cases r with
        | ok v => intro hc; exact Except.noConfusion hc
        | error e =>
          cases e with
          | deser m' p => intro hc; exact PyErr.noConfusion (Except.error.inj hc)
          | raw m' => intro hc; exact PyErr.noConfusion (Except.error.inj hc)
          | typeErr m' => intro hc; exact PyErr.noConfusion (Except.error.inj hc)
      exact hall _
  · intro f d k t
    cases d <;> rfl

/-!
Helper lemmas about the association-list stores used by the mapping
paths, and about the element loop of the sequence path.
-/

theorem lookup_append (l1 l2 : List (String × PyVal)) (k : String) :
    (l1 ++ l2).lookup k =
      match l1.lookup k with
      | some v => some v
      | Option.none => l2.lookup k := by
  induction l1 with
  | nil => rfl
  | cons p t ih =>
    obtain ⟨a, w⟩ := p
    by_cases h : k == a
    · simp [List.lookup, h]
    · simp [List.lookup, h, ih]

theorem lookup_intEntries (l : List (String × Int)) (k : String) :
    (intEntries l).lookup k = (l.lookup k).map PyVal.int := by
  induction l with
  | nil => rfl
  | cons p t ih =>
    obtain ⟨a, n⟩ := p
    by_cases h : k == a
    · simp [intEntries, List.lookup, h]
    · simp only [intEntries, List.map, List.lookup, h] at ih ⊢
      exact ih

theorem lookup_assocSet_self (as : List (String × PyVal)) (k : String) (v : PyVal) :
    (assocSet as k v).lookup k = some v := by
  induction as with
  | nil => simp [assocSet, List.lookup]
  | cons p t ih =>
    obtain ⟨a, w⟩ := p
    by_cases h : a == k
    · simp [assocSet, h, List.lookup]
    · have hne : (k == a) = false := by
        have : ¬a = k := by simpa using h
        simpa using fun hk => this hk.symm
      simp [assocSet, h, List.lookup, hne, ih]

theorem lookup_assocSet_ne (as : List (String × PyVal)) (k k' : String) (v : PyVal)
    (hne : k' ≠ k) : (assocSet as k v).lookup k' = as.lookup k' := by
  have hb : (k' == k) = false := by simpa using hne
  induction as with
  | nil => simp [assocSet, List.lookup, hb]
  | cons p t ih =>
    obtain ⟨a, w⟩ := p
    by_cases h : a == k
    · have hak : a = k := by simpa using h
      have h1 : (k' == k) = false := by simpa using hne
      have h2 : (k' == a) = false := by simp [hak, h1]
      simp [assocSet, h, List.lookup, h1, h2]
    · simp [assocSet, h, List.lookup, ih]

theorem lookup_setdefaultIns (es : List (String × PyVal)) (k' : String) (v : PyVal)
    (k : String) :
    (setdefaultIns es k' v).lookup k =
      match es.lookup k with
      | some w => some w
      | Option.none => if k == k' then some v else Option.none := by
  by_cases hks : (es.lookup k').isSome = true
  · simp only [setdefaultIns, hks, if_true]
    cases hek : es.lookup k with
    | some w => simp
    | none =>
      by_cases hkk : k == k'
      · have hkk' : k = k' := by simpa using hkk
        rw [hkk'] at hek
        rw [hek] at hks
        simp at hks
      · simp [hkk]
  · have hnone : es.lookup k' = Option.none := by
      cases hx : es.lookup k' with
      | none => rfl
      | some u => rw [hx] at hks; simp at hks
    rw [show setdefaultIns es k' v = es ++ [(k', v)] by simp [setdefaultIns, hnone],
      lookup_append]
    cases hek : es.lookup k with
    | some w => simp
    | none =>
      by_cases hkk : k = k'
      · have hb : (k == k') = true := by simpa using hkk
        simp [List.lookup, hb, hkk]
      · have hb : (k == k') = false := by simpa using hkk
        simp [List.lookup, hb, hkk]

/-- One unfolding step of the keys loop at an absent element hint. -/
theorem keysLoop_cons_none (dAny : DAny) (d : PyVal) (r : PyVal) (k : String)
    (rest : List String) :
    keysLoop dAny d Option.none r (k :: rest) =
      (match dAny (pyGetattr d k) (Hint.cls (pyType (pyGetattr d k)))
          (some k) Hint.none with
       | .error e => .error e
       | .ok v =>
         match pySetattr r k v with
         | .error m => .error (.raw m)
         | .ok r' => keysLoop dAny d Option.none r' rest) := rfl

theorem itemsLoop_int_lookup (g : Nat) :
    ∀ (its : List (String × Int)) (es0 : List (String × PyVal)),
    ∃ E, itemsLoop (fun d' c' k' h' => _deserialize_any (g + 1) d' c' k' h')
        Option.none (.dict es0) (intEntries its) = .ok (.dict E) ∧
      ∀ k, E.lookup k =
        match es0.lookup k with
        | some w => some w
        | Option.none => (its.lookup k).map PyVal.int := by
  intro its
  induction its with
  | nil =>
    intro es0
    refine ⟨es0, rfl, fun k => ?_⟩
    cases es0.lookup k <;> rfl
  | cons p rest ih =>
    intro es0
    obtain ⟨k', n⟩ := p
    have hstep : itemsLoop (fun d' c' k' h' => _deserialize_any (g + 1) d' c' k' h')
        Option.none (.dict es0) (intEntries ((k', n) :: rest)) =
        itemsLoop (fun d' c' k' h' => _deserialize_any (g + 1) d' c' k' h')
          Option.none (.dict (setdefaultIns es0 k' (.int n))) (intEntries rest) := rfl
    obtain ⟨E, hE, hlook⟩ := ih (setdefaultIns es0 k' (.int n))
    refine ⟨E, by rw [hstep]; exact hE, fun k => ?_⟩
    rw [hlook k, lookup_setdefaultIns]
    cases hek : es0.lookup k with
    | some w => simp
    | none =>
      by_cases hkk : k == k'
      · simp [List.lookup, hkk]
      · simp [List.lookup, hkk]

theorem keysLoop_int_lookup (g : Nat) (ks0 : List String)
    (attrs : List (String × Int)) :
    ∀ (ks : List String) (A0 : List (String × PyVal)),
    ∃ A, keysLoop (fun d' c' k' h' => _deserialize_any (g + 1) d' c' k' h')
        (.keysObj ks0 (intEntries attrs)) Option.none (.attrMapV [] A0) ks =
        .ok (.attrMapV [] A) ∧
      ∀ k, A.lookup k =
        if k ∈ ks then some (((attrs.lookup k).map PyVal.int).getD PyVal.none)
        else A0.lookup k := by
  intro ks
  induction ks with
  | nil =>
    intro A0
    refine ⟨A0, rfl, fun k => ?_⟩
    simp
  | cons k' rest ih =>
    intro A0
    have hattr : List.lookup k' (intEntries attrs) = (List.lookup k' attrs).map PyVal.int :=
      lookup_intEntries attrs k'
    rcases hlk : List.lookup k' attrs with _ | n
    · have hsv : pyGetattr (.keysObj ks0 (intEntries attrs)) k' = PyVal.none := by
        simp [pyGetattr, hattr, hlk]
      have hstep : keysLoop (fun d' c' k' h' => _deserialize_any (g + 1) d' c' k' h')
          (.keysObj ks0 (intEntries attrs)) Option.none (.attrMapV [] A0) (k' :: rest) =
          keysLoop (fun d' c' k' h' => _deserialize_any (g + 1) d' c' k' h')
            (.keysObj ks0 (intEntries attrs)) Option.none
            (.attrMapV [] (assocSet A0 k' PyVal.none)) rest := by
        rw [keysLoop_cons_none, hsv]; rfl
      obtain ⟨A, hA, hlook⟩ := ih (assocSet A0 k' PyVal.none)
      refine ⟨A, by rw [hstep]; exact hA, fun k => ?_⟩
      rw [hlook k]
      by_cases hin : k ∈ rest
      · simp [hin]
      · by_cases hkk : k = k'
        · subst hkk
          simp [hin, lookup_assocSet_self, hlk]
        · have hmem : ¬k ∈ k' :: rest := by simp [hkk, hin]
          simp only [hin, if_false, hmem]
          rw [lookup_assocSet_ne _ _ _ _ hkk]
    · have hsv : pyGetattr (.keysObj ks0 (intEntries attrs)) k' = PyVal.int n := by
        simp [pyGetattr, hattr, hlk]
      have hstep : keysLoop (fun d' c' k' h' => _deserialize_any (g + 1) d' c' k' h')
          (.keysObj ks0 (intEntries attrs)) Option.none (.attrMapV [] A0) (k' :: rest) =
          keysLoop (fun d' c' k' h' => _deserialize_any (g + 1) d' c' k' h')
            (.keysObj ks0 (intEntries attrs)) Option.none
            (.attrMapV [] (assocSet A0 k' (PyVal.int n))) rest := by
        rw [keysLoop_cons_none, hsv]; rfl
      obtain ⟨A, hA, hlook⟩ := ih (assocSet A0 k' (PyVal.int n))
      refine ⟨A, by rw [hstep]; exact hA, fun k => ?_⟩
      rw [hlook k]
      by_cases hin : k ∈ rest
      · simp [hin]
      · by_cases hkk : k = k'
        · subst hkk
          simp [hin, lookup_assocSet_self, hlk]
        · have hmem : ¬k ∈ k' :: rest := by simp [hkk, hin]
          simp only [hin, if_false, hmem]
          rw [lookup_assocSet_ne _ _ _ _ hkk]

theorem elemsLoop_of_elemsOk (dAny : DAny) (elem : Option Hint) :
    ∀ (xs vs : List PyVal) (i : Nat) (acc : List PyVal),
    ElemsOk dAny elem i xs vs →
    elemsLoop dAny elem i (.list acc) xs = .ok (.list (acc ++ vs)) := by
  intro xs
  induction xs with
  | nil =>
    intro vs i acc hok
    cases vs with
    | nil => simp [elemsLoop]
    | cons v vs => exact hok.elim
  | cons x xs ih =>
    intro vs i acc hok
    cases vs with
    | nil => exact hok.elim
    | cons v vs =>
      obtain ⟨h1, h2⟩ := hok
      simp only [elemsLoop, h1]
      have hgoal := ih vs (i + 1) (acc ++ [v]) h2
      have hl : acc ++ [v] ++ vs = acc ++ v :: vs := by simp
      show elemsLoop dAny elem (i + 1) (.list (acc ++ [v])) xs = .ok (.list (acc ++ v :: vs))
      rw [← hl]
      exact hgoal

theorem elemsOk_int (g : Nat) :
    ∀ (ns : List Int) (i : Nat),
    ElemsOk (fun d' c' k' h' => _deserialize_any (g + 1) d' c' k' h') Option.none i
      (ns.map PyVal.int) (ns.map PyVal.int) := by
  intro ns
  induction ns with
  | nil => intro i; trivial
  | cons n ns ih => intro i; exact ⟨rfl, ih (i + 1)⟩

/-- C7: the asymmetric duplicate-key merge.  Through the item-pairs
accessor the first-seen value of a key wins (the lookup of the result
equals the first lookup of the source, because insertion is
`setdefault`), while through the key-enumeration accessor storage is
plain overwriting attribute assignment, so the last assignment to a key
wins; the last two conjuncts state the two primitive merge semantics
on duplicate insertions. -/
theorem claim_C7_mapping_merge :
    (∀ (g : Nat) (its : List (String × Int)), ∃ E,
      _deserialize_mapping_by_items
        (fun d' c' k' h' => _deserialize_any (g + 1) d' c' k' h')
        .dictC (intEntries its) Option.none = .ok (.dict E) ∧
      ∀ k, E.lookup k = (its.lookup k).map PyVal.int)
  ∧ (∀ (g : Nat) (ks : List String) (attrs : List (String × Int)), ∃ A,
      _deserialize_mapping_by_keys
        (fun d' c' k' h' => _deserialize_any (g + 1) d' c' k' h')
        (.keysObj ks (intEntries attrs)) .attrMapC ks Option.none =
        .ok (.attrMapV [] A) ∧
      ∀ k, A.lookup k =
        if k ∈ ks then some (((attrs.lookup k).map PyVal.int).getD PyVal.none)
        else Option.none)
  ∧ (∀ (es : List (String × PyVal)) (k : String) (v w : PyVal),
      setdefaultIns (setdefaultIns es k v) k w = setdefaultIns es k v)
  ∧ (∀ (as : List (String × PyVal)) (k : String) (v w : PyVal),
      assocSet (assocSet as k v) k w = assocSet as k w) := by
  refine ⟨?_, ?_, ?_, ?_⟩
  · intro g its
    obtain ⟨E, hE, hlook⟩ := itemsLoop_int_lookup g its []
    refine ⟨E, hE, fun k => ?_⟩
    simpa using hlook k
  · intro g ks attrs
    obtain ⟨A, hA, hlook⟩ := keysLoop_int_lookup g ks attrs ks []
    exact ⟨A, hA, hlook⟩
  · intro es k v w
    by_cases hks : (es.lookup k).isSome = true
    · simp [setdefaultIns, hks]
    · have hnone : es.lookup k = Option.none := by
        cases hx : es.lookup k with
        | none => rfl
        | some u => rw [hx] at hks; simp at hks
      simp [setdefaultIns, hnone, lookup_append, List.lookup]
  · intro as k v w
    induction as with
    | nil => simp [assocSet]
    | cons p t ih =>
      obtain ⟨a, u⟩ := p
      by_cases h : a == k
      · simp [assocSet, h]
      · simp [assocSet, h, ih]

/-- C9: sequence order preservation — deserializing any list of
integers into a list target reproduces the elements in exactly the
source order, and in general, whenever every element deserialization
succeeds pointwise, the loop of `_deserialize_iterable` appends the
results in source iteration order. -/
theorem claim_C9_sequence_order :
    (∀ (g : Nat) (ns : List Int),
      deserialize (g + 2) (.list (ns.map PyVal.int)) (.cls .listC) =
        .ok (.list (ns.map PyVal.int)))
  ∧ (∀ (dAny : DAny) (elem : Option Hint) (xs vs : List PyVal) (i : Nat)
      (acc : List PyVal), ElemsOk dAny elem i xs vs →
      elemsLoop dAny elem i (.list acc) xs = .ok (.list (acc ++ vs))) := by
  constructor
  · intro g ns
    have hred : deserialize (g + 2) (.list (ns.map PyVal.int)) (.cls .listC) =
        wrapCatch (some DEFAULT_ROOT_KEY)
          (elemsLoop (fun d' c' k' h' => _deserialize_any (g + 1) d' c' k' h')
            Option.none 0 (.list []) (ns.map PyVal.int)) := rfl
    rw [hred,
      elemsLoop_of_elemsOk _ _ _ _ _ _ (elemsOk_int g ns 0)]
    rfl
  · intro dAny elem xs vs i acc h
    exact elemsLoop_of_elemsOk dAny elem xs vs i acc h

/-- C9 witness: the source [3, 1, 2] deserializes to exactly
[3, 1, 2]. -/
theorem claim_C9_sequence_order_witness :
    ElemsOk (fun d' c' k' h' => _deserialize_any 1 d' c' k' h') Option.none 0
      [.int 3, .int 1, .int 2] [.int 3, .int 1, .int 2] ∧
    elemsLoop (fun d' c' k' h' => _deserialize_any 1 d' c' k' h') Option.none 0
      (.list []) [.int 3, .int 1, .int 2] = .ok (.list [.int 3, .int 1, .int 2]) :=
  ⟨⟨rfl, rfl, rfl, trivial⟩,
   claim_C9_sequence_order.2 _ _ _ _ _ _ ⟨rfl, rfl, rfl, trivial⟩⟩

/-!
Lemmas for the array-codec round trip: a C-contiguous buffer read back
element by element in C order reproduces itself.
-/

theorem elemOffset_ofNat (ns : List Nat) :
    ∀ idx : List Nat,
    elemOffset (ns.map Int.ofNat) idx = Int.ofNat (natOffset ns idx) := by
  induction ns with
  | nil => intro idx; rfl
  | cons s ns ih =>
    intro idx
    cases idx with
    | nil => rfl
    | cons i idx =>
      simp only [elemOffset, natOffset, List.map, List.zipWith, List.sum_cons] at *
      rw [ih idx]
      rfl

theorem natOffset_cStrides_bound (isz : Nat) :
    ∀ (ds idx : List Nat), idx ∈ cIndices ds →
    natOffset (cStrides isz ds) idx + isz ≤ isz * ds.prod := by
  intro ds
  induction ds with
  | nil =>
    intro idx hidx
    simp [cIndices] at hidx
    subst hidx
    simp [natOffset, cStrides]
  | cons d ds ih =>
    intro idx hidx
    simp only [cIndices, List.mem_flatMap, List.mem_map, List.mem_range] at hidx
    obtain ⟨i, hi, idx', hidx', hcons⟩ := hidx
    subst hcons
    have hb := ih idx' hidx'
    simp only [natOffset, cStrides, List.zipWith, List.sum_cons, List.prod_cons] at *
    calc isz * ds.prod * i +
          (List.zipWith (· * ·) (cStrides isz ds) idx').sum + isz
        = isz * ds.prod * i +
          ((List.zipWith (· * ·) (cStrides isz ds) idx').sum + isz) := by
          rw [Nat.add_assoc]
      _ ≤ isz * ds.prod * i + isz * ds.prod := Nat.add_le_add_left hb _
      _ = (i + 1) * (isz * ds.prod) := by ring
      _ ≤ d * (isz * ds.prod) := Nat.mul_le_mul_right _ hi
      _ = isz * (d * ds.prod) := by ring

theorem flatMap_range_chunks (M : Nat) :
    ∀ (dcount : Nat) (l : List Nat), l.length = dcount * M →
    (List.range dcount).flatMap (fun i => (l.drop (i * M)).take M) = l := by
  intro dcount
  induction dcount with
  | zero =>
    intro l hl
    simp at hl
    subst hl
    rfl
  | succ dc ih =>
    intro l hl
    rw [List.range_succ_eq_map, List.flatMap_cons, List.flatMap_map]
    have hinner : ∀ i ∈ List.range dc,
        ((l.drop (Nat.succ i * M)).take M) = (((l.drop M).drop (i * M)).take M) := by
      intro i _
      rw [List.drop_drop, Nat.succ_mul, Nat.add_comm (i * M) M]
    rw [List.flatMap_congr hinner,
      ih (l.drop M) (by rw [List.length_drop, hl, Nat.add_mul, Nat.one_mul]; omega)]
    simp

theorem flatMap_cIndices_contiguous (isz : Nat) :
    ∀ (ds : List Nat) (buf : List Nat), buf.length = isz * ds.prod →
    (cIndices ds).flatMap
      (fun idx => (buf.drop (natOffset (cStrides isz ds) idx)).take isz) = buf := by
  intro ds
  induction ds with
  | nil =>
    intro buf hbuf
    simp only [cIndices, List.flatMap_cons, List.flatMap_nil, List.append_nil,
      natOffset, cStrides, List.zipWith, List.sum_nil, List.drop_zero]
    exact List.take_of_length_le (by simp at hbuf; omega)
  | cons d ds ih =>
    intro buf hbuf
    have hM : buf.length = d * (isz * ds.prod) := by
      simp only [List.prod_cons] at hbuf
      rw [hbuf]; ring
    rw [show cIndices (d :: ds) =
      (List.range d).flatMap (fun i => (cIndices ds).map (fun idx => i :: idx))
      from rfl]
    rw [List.flatMap_assoc]
    have houter : ∀ i ∈ List.range d,
        ((cIndices ds).map (fun idx => i :: idx)).flatMap
          (fun idx => (buf.drop (natOffset (cStrides isz (d :: ds)) idx)).take isz) =
        ((buf.drop (i * (isz * ds.prod))).take (isz * ds.prod)) := by
      intro i hi
      rw [List.flatMap_map]
      have hid : i < d := List.mem_range.mp hi
      have hlen_i : ((buf.drop (i * (isz * ds.prod))).take (isz * ds.prod)).length =
          isz * ds.prod := by
        rw [List.length_take, List.length_drop, hM]
        have : i * (isz * ds.prod) + (isz * ds.prod) ≤ d * (isz * ds.prod) :=
          by calc i * (isz * ds.prod) + (isz * ds.prod)
              = (i + 1) * (isz * ds.prod) := by ring
            _ ≤ d * (isz * ds.prod) := Nat.mul_le_mul_right _ hid
        omega
      have hcong : ∀ idx ∈ cIndices ds,
          (buf.drop (natOffset (cStrides isz (d :: ds)) (i :: idx))).take isz =
          (((buf.drop (i * (isz * ds.prod))).take (isz * ds.prod)).drop
            (natOffset (cStrides isz ds) idx)).take isz := by
        intro idx hidx
        have hb := natOffset_cStrides_bound isz ds idx hidx
        have hoff : natOffset (cStrides isz (d :: ds)) (i :: idx) =
            i * (isz * ds.prod) + natOffset (cStrides isz ds) idx := by
          simp only [natOffset, cStrides, List.zipWith, List.sum_cons]
          ring
        rw [hoff, List.drop_take, List.take_take, ← List.drop_drop]
        have hmin : min isz (isz * ds.prod - natOffset (cStrides isz ds) idx) = isz := by
          omega
        rw [hmin]
      rw [List.flatMap_congr hcong,
        ih ((buf.drop (i * (isz * ds.prod))).take (isz * ds.prod)) hlen_i]
    rw [List.flatMap_congr houter]
    exact flatMap_range_chunks (isz * ds.prod) d buf hM

theorem ndarray_to_bytes_eq_tobytes (platform : String) (a : Ndarray)
    (hlen : cContiguous a = true → a.buffer.length = a.itemsize * a.shape.prod) :
    ndarray_to_bytes platform a = tobytes a := by
  unfold ndarray_to_bytes _ndarray_to_bytes _ndarray_to_bytes_by_darwin
  by_cases hp : platform = "darwin"
  · simp [hp]
  · simp only [hp, if_false]
    by_cases hc : cContiguous a = true
    · simp only [hc, if_true]
      have hstr : a.strides = (cStrides a.itemsize a.shape).map Int.ofNat := by
        simpa [cContiguous] using hc
      have htb : tobytes a = a.buffer := by
        unfold tobytes
        rw [hstr]
        have hcong : ∀ idx ∈ cIndices a.shape,
            readItem a.buffer
              (elemOffset ((cStrides a.itemsize a.shape).map Int.ofNat) idx).toNat
              a.itemsize =
            (a.buffer.drop (natOffset (cStrides a.itemsize a.shape) idx)).take
              a.itemsize := by
          intro idx _
          rw [elemOffset_ofNat]
          rfl
        rw [List.flatMap_congr hcong]
        exact flatMap_cIndices_contiguous a.itemsize a.shape a.buffer (hlen hc)
      exact htb.symm
    · simp [hc]

/-- C4: array codec round trip — for every array accepted by the
serializer (its dtype name resolves canonically in the registry, and
its buffer is exactly the element extent when it is C-contiguous), on
every platform, deserializing the serialized record succeeds and yields
an array whose shape, dtype name, itemsize and strides equal those of
the original and whose buffer is byte-for-byte the original's element
bytes (`tobytes`). -/
theorem claim_C4_roundtrip (platform : String) (a : Ndarray)
    (hdt : dtypeFromName a.dtypeName = some (a.dtypeName, a.itemsize))
    (hlen : cContiguous a = true → a.buffer.length = a.itemsize * a.shape.prod) :
    ∃ p, numpy_serialize platform a = .ok p ∧
      ∃ b, numpy_deserialize (.proto p) = .ok b ∧
        b.shape = a.shape ∧ b.dtypeName = a.dtypeName ∧ b.itemsize = a.itemsize ∧
        b.strides = a.strides ∧ b.buffer = tobytes a := by
  refine ⟨⟨.intList (a.shape.map Int.ofNat), .str a.dtypeName,
    .bytes (ndarray_to_bytes platform a), .intList a.strides⟩, ?_, ?_⟩
  · simp [numpy_serialize, hdt]
  · refine ⟨⟨a.shape, a.dtypeName, a.itemsize, ndarray_to_bytes platform a,
      a.strides⟩, ?_, rfl, rfl, rfl, rfl,
      ndarray_to_bytes_eq_tobytes platform a hlen⟩
    show _numpy_deserialize _ = _
    simp only [_numpy_deserialize, npDtypeOf, hdt]
    have hall : ((a.shape.map Int.ofNat).all (fun n => decide (0 ≤ n))) = true := by
      simp [List.all_eq_true]
    have hmap : (a.shape.map Int.ofNat).map Int.toNat = a.shape := by
      simp [List.map_map, Function.comp_def, Int.toNat_ofNat]
    simp [np_ndarray, coerceShape, coerceBuffer, coerceStrides, hall, hmap]

/-- C4 witness: a concrete contiguous uint8 array of shape [2]
round-trips with identical metadata and bytes. -/
theorem claim_C4_roundtrip_witness :
    ∃ p, numpy_serialize "linux" ⟨[2], "uint8", 1, [7, 9], [1]⟩ = .ok p ∧
      ∃ b, numpy_deserialize (.proto p) = .ok b ∧
        b.shape = [2] ∧ b.dtypeName = "uint8" ∧ b.itemsize = 1 ∧
        b.strides = [1] ∧ b.buffer = tobytes ⟨[2], "uint8", 1, [7, 9], [1]⟩ :=
  claim_C4_roundtrip "linux" ⟨[2], "uint8", 1, [7, 9], [1]⟩ rfl (fun _ => rfl)

end ClassSerialize
